import Mathlib

/-!
Verification of the ouster_viz visualizer core (cliansang/ouster_example).

The embedding below follows the sources under `src/ouster_viz`:

* `include/ouster/point_viz.h` — the public data model: `PointViz`, `Camera`,
  the four scene-object types `Cloud`, `Image`, `Cuboid`, `Label` with their
  dirty flags and staged buffers, and the input-handler stacks.
* `src/common.h` — `load_texture` (GL_NEAREST / GL_CLAMP_TO_EDGE texture
  parameters) and the point vertex shader that looks up per-column poses from
  a `w × 4` RGB texture at coordinates `(trans_index, 0.125/0.375/0.625/0.875)`.
* `src/image.cpp` — the `GLImage` renderer binding (construction guarded by
  the `initialized` flag, `draw` consuming an `Image`'s dirty state).

C++ `float`/`double` values are embedded as `ℚ`, raw C++ buffers as `List ℚ`
(a read past the end of a caller-supplied buffer is modelled as `Option.none`),
and the C++ `std::array` types `vec3d`/`vec4f`/`mat4d` as small structures or
lists.  Definitions whose C++ translation unit is absent from the repository
snapshot (point_viz.cpp, cloud.cpp, camera.cpp) are modelled from the spec and
the declarations and doc comments in `point_viz.h`; each such definition says
so in its doc comment.
-/

namespace OusterViz

/-- Embedding of `vec4f` (`std::array<float, 4>`), e.g. `Image::position_`. -/
structure Vec4 where
  e0 : ℚ
  e1 : ℚ
  e2 : ℚ
  e3 : ℚ
deriving DecidableEq

/-- Embedding of `vec3d` (`std::array<double, 3>`). -/
structure Vec3 where
  x : ℚ
  y : ℚ
  z : ℚ
deriving DecidableEq

/-- Embedding of `mat4d` (`std::array<double, 16>`) as a length-16 list. -/
abbrev Mat4 := List ℚ

/-- The identity matrix `identity4d` from point_viz.h. -/
def identity4d : Mat4 :=
  [1, 0, 0, 0, 0, 1, 0, 0, 0, 0, 1, 0, 0, 0, 0, 1]

/-- Embedding of `WindowCtx` from point_viz.h (context for input callbacks;
the viewport fields are what `GLImage::draw` consumes via `window_aspect`). -/
structure WindowCtx where
  lbutton_down : Bool := false
  mbutton_down : Bool := false
  mouse_x : ℚ := 0
  mouse_y : ℚ := 0
  viewport_width : ℤ := 0
  viewport_height : ℤ := 0
deriving DecidableEq

/-- Modelled from the spec: `impl::window_aspect` lives in camera.h, which is
absent from the repository snapshot.  The window aspect ratio used by
`GLImage::draw` to scale the x extents of the image quad: viewport width over
viewport height. -/
def windowAspect (ctx : WindowCtx) : ℚ :=
  (ctx.viewport_width : ℚ) / (ctx.viewport_height : ℚ)

/-! ## Image (point_viz.h lines 476-536)

`Image` owns three independently dirty-tracked field groups: the screen-space
position rectangle, the monochrome image buffer, and the RGBA mask buffer.
All three dirty flags have in-class initializer `{false}`. -/

/-- Embedding of class `Image` from point_viz.h.  Field initializers are the
in-class initializers of the header (all three dirty flags start `false`,
sizes start 0, buffers start empty). -/
structure Image where
  position_changed : Bool := false
  image_changed : Bool := false
  mask_changed : Bool := false
  position : Vec4 := ⟨0, 0, 0, 0⟩
  image_width : ℕ := 0
  image_height : ℕ := 0
  image_data : List ℚ := []
  mask_width : ℕ := 0
  mask_height : ℕ := 0
  mask_data : List ℚ := []
deriving DecidableEq

/-- Embedding of the `Image()` constructor: the header declares no members
beyond the in-class initializers, so a fresh `Image` is the default record. -/
def Image.init : Image := {}

/-- Modelled from the spec: the body of `Image::set_image` lives in
point_viz.cpp, absent from the snapshot.  Per the declaration and doc comment
in point_viz.h it stores the new width and height, copies `width * height`
elements from the caller's buffer (an implicit-length raw pointer: reading
past a shorter buffer is undefined, modelled as `none`), and marks the image
field group dirty. -/
def Image.set_image (img : Image) (width height : ℕ) (buf : List ℚ) :
    Option Image :=
  if width * height ≤ buf.length then
    some { img with
           image_width := width
           image_height := height
           image_data := buf.take (width * height)
           image_changed := true }
  else none

/-- Modelled from the spec: the body of `Image::set_mask` lives in
point_viz.cpp, absent from the snapshot.  Per the declaration and doc comment
in point_viz.h it copies `4 * width * height` RGBA elements and marks the mask
field group dirty. -/
def Image.set_mask (img : Image) (width height : ℕ) (buf : List ℚ) :
    Option Image :=
  if 4 * (width * height) ≤ buf.length then
    some { img with
           mask_width := width
           mask_height := height
           mask_data := buf.take (4 * (width * height))
           mask_changed := true }
  else none

/-- Modelled from the spec: the body of `Image::set_position` lives in
point_viz.cpp, absent from the snapshot.  Per the declaration
`set_position(x_min, x_max, y_min, y_max)` and spec section 9, the four
arguments are stored in that order in the 4-component position vector, and the
position field group is marked dirty. -/
def Image.set_position (img : Image) (x_min x_max y_min y_max : ℚ) : Image :=
  { img with
    position := ⟨x_min, x_max, y_min, y_max⟩
    position_changed := true }

/-! ## GLImage (image.cpp)

The renderer binding for `Image`.  Its per-instance state is the cached quad
extents `x0 x1 y0 y1` and the two GL textures; the class-wide state is the
`initialized` flag set by `GLImage::initialize`. -/

/-- The last data uploaded to a GL texture by `load_texture` (common.h):
the flat float buffer and its texel dimensions. -/
structure Texture where
  data : List ℚ
  width : ℕ
  height : ℕ
deriving DecidableEq

/-- Embedding of the per-instance state of `impl::GLImage` (image.cpp).
`x0 x1 y0 y1` cache the image placement consumed from `Image::position_`;
the two textures hold the last-uploaded image and mask data.  The
constructor initializes both textures to a 1×1 zero texel. -/
structure GLImage where
  x0 : ℚ := 0
  x1 : ℚ := 0
  y0 : ℚ := 0
  y1 : ℚ := 0
  imageTex : Texture := ⟨[0], 1, 1⟩
  maskTex : Texture := ⟨[0, 0, 0, 0], 1, 1⟩
deriving DecidableEq

/-- Class-wide (static) state of `impl::GLImage`: the `initialized` flag and
the program handle set by `GLImage::initialize` (image.cpp lines 15-20 and
121-130). -/
structure GLImageGlobals where
  initialized : Bool := false
  program_id : ℕ := 0
deriving DecidableEq

/-- Embedding of `GLImage::initialize` (image.cpp line 121): compiles the
shader program and sets the class-wide `initialized` flag. -/
def GLImageGlobals.initializeBackend (g : GLImageGlobals) : GLImageGlobals :=
  { g with initialized := true, program_id := 1 }

/-- Embedding of the `GLImage::GLImage()` constructor (image.cpp line 22):
if the class-wide `initialized` flag is not set it throws
`std::logic_error("GLCloud not initialized")`; otherwise it produces a fresh
instance with both textures initialized to a 1×1 zero texel. -/
def GLImage.construct (g : GLImageGlobals) : Except String GLImage :=
  if g.initialized then Except.ok {} else Except.error "GLCloud not initialized"

/-- Result of `GLImage::draw` (image.cpp line 53): the updated binding state,
the updated (flag-cleared) `Image`, and the 8 vertex floats uploaded for the
quad (`{x0s, y0, x0s, y1, x1s, y1, x1s, y0}` with the x extents divided by the
window aspect ratio). -/
structure DrawResult where
  gl : GLImage
  image : Image
  vertices : List ℚ
deriving DecidableEq

/-- Embedding of `GLImage::draw` (image.cpp lines 53-119).  Each of the three
dirty field groups is consumed only if its flag is set: the position extents
are cached into `x0..y1`, the image and mask buffers are re-uploaded with
`load_texture`, and each consumed flag is cleared inside its `if`.  The quad
vertices are then computed from the cached extents, the x coordinates scaled
by the reciprocal of the window aspect ratio. -/
def GLImage.draw (gl : GLImage) (ctx : WindowCtx) (img : Image) : DrawResult :=
  let s1 :=
    if img.position_changed then
      ({ gl with
         x0 := img.position.e0
         x1 := img.position.e1
         y0 := img.position.e2
         y1 := img.position.e3 },
       { img with position_changed := false })
    else (gl, img)
  let s2 :=
    if s1.2.image_changed then
      ({ s1.1 with
         imageTex := ⟨s1.2.image_data, s1.2.image_width, s1.2.image_height⟩ },
       { s1.2 with image_changed := false })
    else s1
  let s3 :=
    if s2.2.mask_changed then
      ({ s2.1 with
         maskTex := ⟨s2.2.mask_data, s2.2.mask_width, s2.2.mask_height⟩ },
       { s2.2 with mask_changed := false })
    else s2
  let aspect := windowAspect ctx
  let x0s := s3.1.x0 / aspect
  let x1s := s3.1.x1 / aspect
  { gl := s3.1
    image := s3.2
    vertices := [x0s, s3.1.y0, x0s, s3.1.y1, x1s, s3.1.y1, x1s, s3.1.y0] }

/-! ## Cloud (point_viz.h lines 327-471)

A point cloud of `n` points with `w` per-column poses.  The header gives every
dirty flag the in-class initializer `{false}`; every setter copies data from a
caller-supplied raw pointer and marks its field group dirty.  The setter
bodies live in cloud.cpp, absent from the snapshot, and are modelled from the
declarations and doc comments in point_viz.h and from spec sections 4.1 and 9:
a raw pointer carries an implicit length contract — the setter reads exactly
the fixed element count, succeeding on any buffer at least that long, and a
shorter buffer is an out-of-bounds read (modelled as `none`), never a reported
error. -/

/-- Embedding of class `Cloud` from point_viz.h.  Flag initializers are the
in-class initializers of the header (all `false`); `point_size` starts at 2. -/
structure Cloud where
  n : ℕ
  w : ℕ
  extrinsic : Mat4 := identity4d
  range_changed : Bool := false
  key_changed : Bool := false
  mask_changed : Bool := false
  xyz_changed : Bool := false
  offset_changed : Bool := false
  transform_changed : Bool := false
  palette_changed : Bool := false
  pose_changed : Bool := false
  point_size_changed : Bool := false
  range_data : List ℚ := []
  key_data : List ℚ := []
  mask_data : List ℚ := []
  xyz_data : List ℚ := []
  off_data : List ℚ := []
  transform_data : List ℚ := []
  palette_data : List ℚ := []
  pose : Mat4 := identity4d
  point_size : ℚ := 2
deriving DecidableEq

/-- Embedding of the unstructured constructor `Cloud(n, extrinsic)`
(point_viz.h line 364): `w = 1` poses, all dirty flags at their in-class
initializer `false`. -/
def Cloud.initUnstructured (n : ℕ) (extrinsic : Mat4) : Cloud :=
  { n := n, w := 1, extrinsic := extrinsic }

/-- Embedding of the structured constructor `Cloud(w, h, dir, off, extrinsic)`
(point_viz.h line 378): `n = w * h` points with `w` poses, all dirty flags at
their in-class initializer `false`. -/
def Cloud.initStructured (w h : ℕ) (dir off : List ℚ) (extrinsic : Mat4) :
    Cloud :=
  { n := w * h, w := w, extrinsic := extrinsic,
    xyz_data := dir.take (3 * (w * h)), off_data := off.take (3 * (w * h)) }

/-- Modelled from the spec: body of `Cloud::set_range` (cloud.cpp absent).
Copies `n` range values from the caller's buffer and marks the range group
dirty; the doc comment requires a buffer of at least `n` elements. -/
def Cloud.set_range (c : Cloud) (buf : List ℚ) : Option Cloud :=
  if c.n ≤ buf.length then
    some { c with range_data := buf.take c.n, range_changed := true }
  else none

/-- Modelled from the spec: body of `Cloud::set_key` (cloud.cpp absent).
Copies `n` key values and marks the key group dirty. -/
def Cloud.set_key (c : Cloud) (buf : List ℚ) : Option Cloud :=
  if c.n ≤ buf.length then
    some { c with key_data := buf.take c.n, key_changed := true }
  else none

/-- Modelled from the spec: body of `Cloud::set_mask` (cloud.cpp absent).
Copies `4 * n` RGBA values and marks the mask group dirty. -/
def Cloud.set_mask (c : Cloud) (buf : List ℚ) : Option Cloud :=
  if 4 * c.n ≤ buf.length then
    some { c with mask_data := buf.take (4 * c.n), mask_changed := true }
  else none

/-- Modelled from the spec: body of `Cloud::set_xyz` (cloud.cpp absent).
Copies `3 * n` coordinates and marks the xyz group dirty. -/
def Cloud.set_xyz (c : Cloud) (buf : List ℚ) : Option Cloud :=
  if 3 * c.n ≤ buf.length then
    some { c with xyz_data := buf.take (3 * c.n), xyz_changed := true }
  else none

/-- Modelled from the spec: body of `Cloud::set_offset` (cloud.cpp absent).
Copies `3 * n` offsets and marks the offset group dirty. -/
def Cloud.set_offset (c : Cloud) (buf : List ℚ) : Option Cloud :=
  if 3 * c.n ≤ buf.length then
    some { c with off_data := buf.take (3 * c.n), offset_changed := true }
  else none

/-- Modelled from the spec: body of `Cloud::set_pose` (cloud.cpp absent).
Stores the 4×4 whole-cloud pose (passed by value as `mat4d`, so its size is
fixed by the type) and marks the pose group dirty. -/
def Cloud.set_pose (c : Cloud) (pose : Mat4) : Cloud :=
  { c with pose := pose, pose_changed := true }

/-- Modelled from the spec: body of `Cloud::set_point_size` (cloud.cpp
absent).  Stores the point size and marks its group dirty. -/
def Cloud.set_point_size (c : Cloud) (size : ℚ) : Cloud :=
  { c with point_size := size, point_size_changed := true }

/-- Modelled from the spec: body of `Cloud::set_palette` (cloud.cpp absent).
Copies `3 * palette_size` color components and marks the palette group
dirty. -/
def Cloud.set_palette (c : Cloud) (buf : List ℚ) (palette_size : ℕ) :
    Option Cloud :=
  if 3 * palette_size ≤ buf.length then
    some { c with palette_data := buf.take (3 * palette_size),
                  palette_changed := true }
  else none

/-! ## Cuboid and Label (point_viz.h lines 541-629) -/

/-- Embedding of class `Cuboid` from point_viz.h: both dirty flags have the
in-class initializer `{false}`; the constructor takes the transform and
color. -/
structure Cuboid where
  transform_changed : Bool := false
  rgba_changed : Bool := false
  transform : Mat4
  rgba : Vec4
deriving DecidableEq

/-- Embedding of the `Cuboid(transform, rgba)` constructor (point_viz.h line
549): stores the two arguments, dirty flags at their in-class initializer
`false`. -/
def Cuboid.init (transform : Mat4) (rgba : Vec4) : Cuboid :=
  { transform := transform, rgba := rgba }

/-- Modelled from the spec: body of `Cuboid::set_transform` (point_viz.cpp
absent).  Stores the 4×4 transform and marks its group dirty. -/
def Cuboid.set_transform (c : Cuboid) (pose : Mat4) : Cuboid :=
  { c with transform := pose, transform_changed := true }

/-- Modelled from the spec: body of `Cuboid::set_rgba` (point_viz.cpp
absent).  Stores the color and marks its group dirty. -/
def Cuboid.set_rgba (c : Cuboid) (rgba : Vec4) : Cuboid :=
  { c with rgba := rgba, rgba_changed := true }

/-- Embedding of class `Label` from point_viz.h.  The in-class initializers
(lines 577-581) are `pos_changed_{false}`, `scale_changed_{true}`,
`text_changed_{false}`, `is_3d_{false}`, `align_right_{false}`, scale 1. -/
structure Label where
  pos_changed : Bool := false
  scale_changed : Bool := true
  text_changed : Bool := false
  is_3d : Bool := false
  align_right : Bool := false
  position : Vec3 := ⟨0, 0, 0⟩
  scale : ℚ := 1
  text : String := ""
deriving DecidableEq

/-- Embedding of the 3d `Label(text, position)` constructor (point_viz.h line
588): stores the text and 3d anchor; the dirty flags keep their in-class
initializers, so `scale_changed` starts `true`. -/
def Label.init3d (text : String) (position : Vec3) : Label :=
  { text := text, position := position, is_3d := true }

/-- Embedding of the 2d `Label(text, x, y, align_right)` constructor
(point_viz.h line 589): stores the text and 2d anchor with alignment; the
dirty flags keep their in-class initializers, so `scale_changed` starts
`true`. -/
def Label.init2d (text : String) (x y : ℚ) (align_right : Bool) : Label :=
  { text := text, position := ⟨x, y, 0⟩, is_3d := false,
    align_right := align_right }

/-- Modelled from the spec: body of `Label::set_text` (point_viz.cpp absent).
Stores the text and marks the text group dirty. -/
def Label.set_text (l : Label) (text : String) : Label :=
  { l with text := text, text_changed := true }

/-- Modelled from the spec: body of the 3d `Label::set_position`
(point_viz.cpp absent).  Stores the 3d anchor (the anchor kind flag belongs to
the position group) and marks the position group dirty. -/
def Label.set_position3d (l : Label) (position : Vec3) : Label :=
  { l with position := position, is_3d := true, pos_changed := true }

/-- Modelled from the spec: body of the 2d `Label::set_position`
(point_viz.cpp absent).  Stores the 2d anchor with its alignment flag (both
belong to the position group) and marks the position group dirty. -/
def Label.set_position2d (l : Label) (x y : ℚ) (align_right : Bool) : Label :=
  { l with position := ⟨x, y, 0⟩, is_3d := false, align_right := align_right,
           pos_changed := true }

/-- Modelled from the spec: body of `Label::set_scale` (point_viz.cpp
absent).  Stores the scale factor and marks the scale group dirty. -/
def Label.set_scale (l : Label) (scale : ℚ) : Label :=
  { l with scale := scale, scale_changed := true }

/-! ## Column-pose texture encoding (common.h)

`load_texture` (common.h lines 101-121) configures every texture with
`GL_NEAREST` magnification and minification filters and `GL_CLAMP_TO_EDGE`
wrapping, and the point vertex shader (common.h lines 148-189) reads the per
column pose of a point from a `w × 4` RGB texture, sampling the four rows at
texture coordinates `(trans_index, 0.125 / 0.375 / 0.625 / 0.875)` and
assembling the rows as the four columns (three rotation columns and the
translation) of the pose matrix. -/

/-- GL_NEAREST texel selection along one axis of a texture of `size` texels,
as configured by `load_texture` in common.h (GL_NEAREST filters with
GL_CLAMP_TO_EDGE wrapping): the selected texel is `⌊s * size⌋` clamped to
`[0, size - 1]`; a sample reads exactly one texel, never a blend of two. -/
def nearestTexel (size : ℕ) (s : ℚ) : ℕ :=
  min (size - 1) (Int.toNat ⌊s * (size : ℚ)⌋)

/-- One channel of the texel at column `v`, row `j` of a `w`-texels-wide RGB
texture stored as the flat row-major float buffer `data` (the layout
`glTexImage2D` consumes in `load_texture`). -/
def texChannel (w : ℕ) (data : List ℚ) (v j ch : ℕ) : ℚ :=
  data.getD ((j * w + v) * 3 + ch) 0

/-- The RGB triple returned by a shader `texture(...)` lookup on a `w × h`
RGB texture at coordinates `(s, t)`, under the GL_NEAREST / CLAMP_TO_EDGE
sampling state set by `load_texture`. -/
def sampleRGB (w h : ℕ) (data : List ℚ) (s t : ℚ) : ℚ × ℚ × ℚ :=
  let v := nearestTexel w s
  let j := nearestTexel h t
  (texChannel w data v j 0, texChannel w data v j 1, texChannel w data v j 2)

/-- The pose assembled by the point vertex shader (common.h lines 175-184):
columns `r0 r1 r2` of the rotation and the translation `t` of the `car_pose`
matrix. -/
structure ShaderPose where
  r0 : ℚ × ℚ × ℚ
  r1 : ℚ × ℚ × ℚ
  r2 : ℚ × ℚ × ℚ
  t : ℚ × ℚ × ℚ
deriving DecidableEq

/-- The four texture lookups of the point vertex shader (common.h lines
175-178): rows sampled at `t`-coordinates 1/8, 3/8, 5/8, 7/8 of the `w × 4`
pose texture, the column selected by `trans_index`. -/
def shaderPoseLookup (w : ℕ) (data : List ℚ) (trans_index : ℚ) : ShaderPose :=
  { r0 := sampleRGB w 4 data trans_index (1/8)
    r1 := sampleRGB w 4 data trans_index (3/8)
    r2 := sampleRGB w 4 data trans_index (5/8)
    t := sampleRGB w 4 data trans_index (7/8) }

/-- Modelled from the spec: the packing performed by `Cloud::set_column_poses`
(cloud.cpp absent).  The `w` column poses become a flat row-major `w × 4` RGB
texture buffer (the layout described by the vertex shader comment in common.h:
texture column `v` holds the `v`th pose, rows 0-2 its three rotation columns,
row 3 its translation), drawing on the index layout documented at the
declaration in point_viz.h: the `v`th rotation matrix is
`r[v], r[w+v], ..., r[8w+v]` and the `v`th translation is
`t[v], t[w+v], t[2w+v]`. -/
def packColumnPoses (w : ℕ) (rot tr : List ℚ) : List ℚ :=
  (List.range (4 * (w * 3))).map fun i =>
    let j := i / (w * 3)
    let v := (i % (w * 3)) / 3
    let ch := i % 3
    if j < 3 then rot.getD ((3 * j + ch) * w + v) 0 else tr.getD (ch * w + v) 0

/-- Modelled from the spec: body of `Cloud::set_column_poses` (cloud.cpp
absent).  Reads `9w` rotation and `3w` translation elements from the two
caller buffers (implicit-length raw pointers), stages their packed texture
form, and marks the transform group dirty. -/
def Cloud.set_column_poses (c : Cloud) (rot tr : List ℚ) : Option Cloud :=
  if 9 * c.w ≤ rot.length ∧ 3 * c.w ≤ tr.length then
    some { c with transform_data := packColumnPoses c.w rot tr,
                  transform_changed := true }
  else none

/-! ## Camera (point_viz.h lines 211-290)

The camera state is the private fields declared in the header: the target
matrix, view offset, yaw and pitch in integer decidegrees, integer log-scaled
distance (0 meaning 50 m), orthographic flag, field of view and 2d projection
offset.  The method bodies live in camera.cpp, absent from the snapshot, and
are modelled from the doc comments in point_viz.h and spec section 4.2. -/

/-- Embedding of class `Camera` (point_viz.h lines 211-222), with the fields
named as in the header. -/
structure Camera where
  target_ : Mat4
  view_offset_ : Vec3
  yaw_ : ℤ
  pitch_ : ℤ
  log_distance_ : ℤ
  orthographic_ : Bool
  fov_ : ℤ
  proj_offset_x_ : ℚ
  proj_offset_y_ : ℚ
deriving DecidableEq

/-- Modelled from the spec: the `Camera()` construction-time defaults
(camera.cpp absent) — identity target, zero view offset, zero yaw and pitch,
log distance 0 (the 50 m reference of the header comment), perspective
projection, a default field of view and a centered projection offset. -/
def Camera.init : Camera :=
  { target_ := identity4d
    view_offset_ := ⟨0, 0, 0⟩
    yaw_ := 0
    pitch_ := 0
    log_distance_ := 0
    orthographic_ := false
    fov_ := 45
    proj_offset_x_ := 0
    proj_offset_y_ := 0 }

/-- Modelled from the spec: `Camera::view_distance` (camera.cpp absent) — the
log-scaled integer distance becomes a multiplicative-per-unit distance with
50 m at 0, per the header comment and spec section 4.2. -/
def Camera.view_distance (c : Camera) : ℚ :=
  50 * (101 / 100 : ℚ) ^ c.log_distance_

/-- Modelled from the spec: `Camera::yaw(degrees)` (camera.cpp absent) adds a
relative offset to the yaw angle, converted to integer decidegrees. -/
def Camera.yaw (c : Camera) (degrees : ℚ) : Camera :=
  { c with yaw_ := c.yaw_ + ⌊10 * degrees⌋ }

/-- Modelled from the spec: `Camera::pitch(degrees)` (camera.cpp absent) adds
a relative offset to the pitch angle, converted to integer decidegrees
(unclamped at this layer, per spec section 4.2). -/
def Camera.pitch (c : Camera) (degrees : ℚ) : Camera :=
  { c with pitch_ := c.pitch_ + ⌊10 * degrees⌋ }

/-- Modelled from the spec: `Camera::dolly(amount)` (camera.cpp absent) adds
the integer amount to the log-scaled distance. -/
def Camera.dolly (c : Camera) (amount : ℤ) : Camera :=
  { c with log_distance_ := c.log_distance_ + amount }

/-- Modelled from the spec: `Camera::dolly_xy(x, y)` (camera.cpp absent)
translates the view target in the view plane, the inputs normalized to the
view-plane diagonal at the target distance, so the applied offset scales with
the current view distance. -/
def Camera.dolly_xy (c : Camera) (x y : ℚ) : Camera :=
  { c with view_offset_ :=
      ⟨c.view_offset_.x + x * c.view_distance,
       c.view_offset_.y + y * c.view_distance,
       c.view_offset_.z⟩ }

/-- Modelled from the spec: `Camera::set_fov(degrees)` (camera.cpp absent)
sets the absolute diagonal field of view, stored as an integer. -/
def Camera.set_fov (c : Camera) (degrees : ℚ) : Camera :=
  { c with fov_ := ⌊degrees⌋ }

/-- Modelled from the spec: `Camera::set_orthographic(state)` (camera.cpp
absent) selects orthographic or perspective projection. -/
def Camera.set_orthographic (c : Camera) (state : Bool) : Camera :=
  { c with orthographic_ := state }

/-- Modelled from the spec: `Camera::set_proj_offset(x, y)` (camera.cpp
absent) sets the absolute 2d position of the camera target in the viewport. -/
def Camera.set_proj_offset (c : Camera) (x y : ℚ) : Camera :=
  { c with proj_offset_x_ := x, proj_offset_y_ := y }

/-- Modelled from the spec: `Camera::reset()` (camera.cpp absent) returns
every field — target matrix, view offset, yaw, pitch, log distance,
orthographic flag, fov and projection offset — to its construction-time
default. -/
def Camera.reset (_ : Camera) : Camera :=
  { target_ := identity4d
    view_offset_ := ⟨0, 0, 0⟩
    yaw_ := 0
    pitch_ := 0
    log_distance_ := 0
    orthographic_ := false
    fov_ := 45
    proj_offset_x_ := 0
    proj_offset_y_ := 0 }

/-- Embedding of `impl::CameraData`: the view and projection quantities that
`Camera::matrices(aspect)` derives fresh from the camera state on every
call. -/
structure CameraData where
  yaw_deg : ℚ
  pitch_deg : ℚ
  distance : ℚ
  target : Mat4
  view_offset : Vec3
  orthographic : Bool
  fov_deg : ℚ
  proj_scale_x : ℚ
  proj_offset : ℚ × ℚ
deriving DecidableEq

/-- Modelled from the spec: `Camera::matrices(aspect)` (camera.cpp absent) —
a pure derivation of the view and projection quantities from the camera
fields and the aspect ratio, mutating nothing (spec section 4.2).  The
decidegree angles become degrees, the log distance its multiplicative
distance, and the horizontal projection scale folds in the aspect ratio. -/
def Camera.matrices (c : Camera) (aspect : ℚ) : CameraData :=
  { yaw_deg := (c.yaw_ : ℚ) / 10
    pitch_deg := (c.pitch_ : ℚ) / 10
    distance := c.view_distance
    target := c.target_
    view_offset := c.view_offset_
    orthographic := c.orthographic_
    fov_deg := (c.fov_ : ℚ)
    proj_scale_x := 1 / aspect
    proj_offset := (c.proj_offset_x_, c.proj_offset_y_) }

/-- One mutation of the camera through its public methods (the only way the
camera state changes, per spec section 4.2). -/
inductive CameraOp where
  | yaw (degrees : ℚ)
  | pitch (degrees : ℚ)
  | dolly (amount : ℤ)
  | dollyXY (x y : ℚ)
  | setFov (degrees : ℚ)
  | setOrthographic (state : Bool)
  | setProjOffset (x y : ℚ)

/-- Apply one camera method call. -/
def CameraOp.apply (c : Camera) : CameraOp → Camera
  | .yaw d => c.yaw d
  | .pitch d => c.pitch d
  | .dolly a => c.dolly a
  | .dollyXY x y => c.dolly_xy x y
  | .setFov d => c.set_fov d
  | .setOrthographic s => c.set_orthographic s
  | .setProjOffset x y => c.set_proj_offset x y

/-- Apply a finite sequence of camera method calls. -/
def Camera.applyOps (c : Camera) (ops : List CameraOp) : Camera :=
  ops.foldl CameraOp.apply c

/-! ## Input-handler stacks (point_viz.h lines 120-152)

Four stacks of predicate callbacks.  The stack and dispatch bodies live in
point_viz.cpp, absent from the snapshot, and are modelled from spec sections
4.4 and 4.5: `push_*` adds a handler on top, `pop_*` removes the most recently
pushed one, and dispatch invokes handlers most-recently-pushed-first until one
returns true, which consumes the event. -/

/-- Modelled from the spec: one input-handler stack of PointViz (point_viz.cpp
absent).  The list head is the most recently pushed handler; each handler
carries a label of type `α` identifying the callback and its predicate on
events of type `E`. -/
abbrev HandlerStack (α E : Type) := List (α × (E → Bool))

/-- Modelled from the spec: `push_*_handler` places the new handler on top of
the stack. -/
def pushHandler {α E : Type} (s : HandlerStack α E) (h : α × (E → Bool)) :
    HandlerStack α E :=
  h :: s

/-- Modelled from the spec: `pop_*_handler` removes the most recently pushed
handler. -/
def popHandler {α E : Type} (s : HandlerStack α E) : HandlerStack α E :=
  s.tail

/-- Modelled from the spec: dispatch of one event over a handler stack
(point_viz.cpp absent).  Handlers are invoked most-recently-pushed-first; the
first one returning true consumes the event and stops dispatch.  The result
is the labels of the handlers invoked, in invocation order. -/
def dispatchTrace {α E : Type} : HandlerStack α E → E → List α
  | [], _ => []
  | (a, f) :: rest, e => if f e then [a] else a :: dispatchTrace rest e

/-! ## PointViz publish/consume protocol (point_viz.h lines 109-118)

`PointViz::update()` publishes the producer-side staged state to a single
render-visible slot.  The body lives in point_viz.cpp, absent from the
snapshot, and is modelled from the doc comment in point_viz.h and spec
sections 4.4 and 5: publication is best-effort, non-blocking and single-slot. -/

/-- Modelled from the spec: the publish/consume state of PointViz
(point_viz.cpp absent), parametrized by the type `S` of one staged scene
snapshot.  `staged` is the producer-side state being mutated through the
setters, `pending` the single unconsumed published generation, `consuming`
whether the render role is mid-consumption, and `front` the state last drained
by the render role. -/
structure VizState (S : Type) where
  staged : S
  pending : Option S
  consuming : Bool
  front : S
deriving DecidableEq

/-- Producer-side mutation of the staged state (the object setters and camera
writes that precede an `update()`). -/
def VizState.stage {S : Type} (v : VizState S) (s : S) : VizState S :=
  { v with staged := s }

/-- Modelled from the spec: `PointViz::update()` (point_viz.cpp absent) —
non-blocking, best-effort publication.  If the render role is mid-consumption
the call returns false immediately and changes nothing; otherwise it
overwrites the single pending slot with the staged state and returns true. -/
def VizState.update {S : Type} (v : VizState S) : Bool × VizState S :=
  if v.consuming then (false, v)
  else (true, { v with pending := some v.staged })

/-- Modelled from the spec: the render role starting to consume a frame —
it drains the pending generation (if any) into the front state, empties the
slot and is mid-consumption until `endConsume`. -/
def VizState.beginConsume {S : Type} (v : VizState S) : VizState S :=
  { v with front := v.pending.getD v.front, pending := none,
           consuming := true }

/-- Modelled from the spec: the render role finishing its consumption of a
frame. -/
def VizState.endConsume {S : Type} (v : VizState S) : VizState S :=
  { v with consuming := false }

/-! ## Dirty-flag summaries and concrete example data -/

/-- True when any of the nine dirty flags of a `Cloud` is set. -/
def Cloud.anyDirty (c : Cloud) : Bool :=
  c.range_changed || c.key_changed || c.mask_changed || c.xyz_changed ||
  c.offset_changed || c.transform_changed || c.palette_changed ||
  c.pose_changed || c.point_size_changed

/-- True when any of the three dirty flags of an `Image` is set. -/
def Image.anyDirty (img : Image) : Bool :=
  img.position_changed || img.image_changed || img.mask_changed

/-- True when any of the two dirty flags of a `Cuboid` is set. -/
def Cuboid.anyDirty (c : Cuboid) : Bool :=
  c.transform_changed || c.rgba_changed

/-- True when any of the three dirty flags of a `Label` is set. -/
def Label.anyDirty (l : Label) : Bool :=
  l.pos_changed || l.scale_changed || l.text_changed

/-- A 36-element rotation buffer (size `9w` for `w = 4`) of pairwise distinct
values, used to exercise the column-pose round trip. -/
def rotEx : List ℚ :=
  [0, 1, 2, 3, 4, 5, 6, 7, 8, 9, 10, 11, 12, 13, 14, 15, 16, 17,
   18, 19, 20, 21, 22, 23, 24, 25, 26, 27, 28, 29, 30, 31, 32, 33, 34, 35]

/-- A 12-element translation buffer (size `3w` for `w = 4`) of pairwise
distinct values, disjoint from `rotEx`. -/
def translationEx : List ℚ :=
  [100, 101, 102, 103, 104, 105, 106, 107, 108, 109, 110, 111]

/-! ## Theorems -/

/-- Claim C10: immediately after construction every dirty flag of a Cloud,
Image or Cuboid is false, while a freshly constructed Label has `pos_changed_`
and `text_changed_` false but `scale_changed_` true — so a new Label, uniquely
among the four scene-object types, already has one field group marked dirty
before any setter runs (in-class initializers, point_viz.h lines 332-340,
477-479, 542-543 and 577-581). -/
theorem c10_initial_dirty_flags (n w h : ℕ) (dir off : List ℚ) (e : Mat4)
    (tf : Mat4) (rgba : Vec4) (text : String) (p : Vec3) (x y : ℚ)
    (ar : Bool) :
    (Cloud.initUnstructured n e).anyDirty = false ∧
    (Cloud.initStructured w h dir off e).anyDirty = false ∧
    Image.init.anyDirty = false ∧
    (Cuboid.init tf rgba).anyDirty = false ∧
    (Label.init3d text p).pos_changed = false ∧
    (Label.init3d text p).text_changed = false ∧
    (Label.init3d text p).scale_changed = true ∧
    (Label.init3d text p).anyDirty = true ∧
    (Label.init2d text x y ar).pos_changed = false ∧
    (Label.init2d text x y ar).text_changed = false ∧
    (Label.init2d text x y ar).scale_changed = true ∧
    (Label.init2d text x y ar).anyDirty = true := by
  refine ⟨rfl, rfl, rfl, rfl, rfl, rfl, rfl, rfl, rfl, rfl, rfl, rfl⟩

/-- Claim C4: `GLImage::draw` consumes the dirty field groups of the `Image`
it draws: all three flags are false when it returns, each texture is
re-uploaded exactly when its flag was set on entry (otherwise the binding's
texture and cached extents are untouched), and the image's staged buffers —
everything except the three cleared flags — are unchanged (image.cpp lines
53-119). -/
theorem c4_glimage_draw_consumes_dirty (gl : GLImage) (ctx : WindowCtx)
    (img : Image) :
    ((gl.draw ctx img).image.position_changed = false ∧
     (gl.draw ctx img).image.image_changed = false ∧
     (gl.draw ctx img).image.mask_changed = false) ∧
    (gl.draw ctx img).gl.imageTex =
      (if img.image_changed then
        ⟨img.image_data, img.image_width, img.image_height⟩
       else gl.imageTex) ∧
    (gl.draw ctx img).gl.maskTex =
      (if img.mask_changed then
        ⟨img.mask_data, img.mask_width, img.mask_height⟩
       else gl.maskTex) ∧
    ((gl.draw ctx img).gl.x0, (gl.draw ctx img).gl.x1,
     (gl.draw ctx img).gl.y0, (gl.draw ctx img).gl.y1) =
      (if img.position_changed then
        (img.position.e0, img.position.e1, img.position.e2, img.position.e3)
       else (gl.x0, gl.x1, gl.y0, gl.y1)) ∧
    (gl.draw ctx img).image =
      { img with position_changed := false, image_changed := false,
                 mask_changed := false } := by
  obtain ⟨pc, ic, mc, pos, iw, ih, idata, mw, mh, mdata⟩ := img
  cases pc <;> cases ic <;> cases mc <;> simp [GLImage.draw]

/-- Claim C9: `Image::set_position(x_min, x_max, y_min, y_max)` stores its
four arguments at indices 0-3 of the position vector in that order, and
`GLImage::draw` reads indices 0 and 1 as the two x extents, each divided by
the window aspect ratio, and indices 2 and 3 as the two y extents, unscaled
(point_viz.h line 533, image.cpp lines 55-88). -/
theorem c9_set_position_order (img : Image) (x_min x_max y_min y_max : ℚ)
    (gl : GLImage) (ctx : WindowCtx) :
    (img.set_position x_min x_max y_min y_max).position =
      ⟨x_min, x_max, y_min, y_max⟩ ∧
    (gl.draw ctx (img.set_position x_min x_max y_min y_max)).vertices =
      [x_min / windowAspect ctx, y_min,
       x_min / windowAspect ctx, y_max,
       x_max / windowAspect ctx, y_max,
       x_max / windowAspect ctx, y_min] := by
  cases hi : img.image_changed <;> cases hm : img.mask_changed <;>
    simp [GLImage.draw, Image.set_position, hi, hm]

/-- Claim C8: constructing a `GLImage` before `GLImage::initialize()` has run
raises an error (the constructor throws when the class-wide `initialized` flag
is unset) rather than proceeding, and after `initialize()` has run
construction succeeds (image.cpp lines 15, 22-24, 121-130). -/
theorem c8_glimage_requires_initialized (g : GLImageGlobals) :
    (g.initialized = false →
      GLImage.construct g = Except.error "GLCloud not initialized") ∧
    g.initializeBackend.initialized = true ∧
    GLImage.construct g.initializeBackend = Except.ok {} := by
  refine ⟨fun h => ?_, rfl, rfl⟩
  simp [GLImage.construct, h]

/-- Claim C8 witness: on the default class-wide state (the static initializer
`GLImage::initialized = false`), construction fails with the error, and after
running the backend initialization it succeeds. -/
theorem c8_glimage_requires_initialized_witness :
    ({} : GLImageGlobals).initialized = false ∧
    GLImage.construct {} = Except.error "GLCloud not initialized" ∧
    GLImage.construct (GLImageGlobals.initializeBackend {}) = Except.ok {} :=
  ⟨rfl, (c8_glimage_requires_initialized {}).1 rfl,
    (c8_glimage_requires_initialized {}).2.2⟩

/-- Claim C1: `PointViz::update()` never blocks — while the render role is
mid-consumption it returns false immediately and changes nothing, and when it
is called twice with no intervening consumption both calls succeed, the single
pending slot holds exactly the second call's staged state (the first
generation is overwritten, never queued, so at most the one `Option` slot of
unconsumed state exists), and the next consumption observes exactly that
second state. -/
theorem c1_update_nonblocking_single_slot {S : Type} (v : VizState S)
    (s1 s2 : S) :
    (v.consuming = true → v.update = (false, v)) ∧
    (v.consuming = false →
      ((v.stage s1).update.1 = true ∧
       ((v.stage s1).update.2.stage s2).update.1 = true ∧
       ((v.stage s1).update.2.stage s2).update.2.pending = some s2 ∧
       (((v.stage s1).update.2.stage s2).update.2.beginConsume).front = s2)) := by
  constructor
  · intro h
    simp [VizState.update, h]
  · intro h
    simp [VizState.update, VizState.stage, VizState.beginConsume, h]

/-- Claim C1 witness: on a concrete state over `S = ℕ` — a mid-consumption
state rejects the publish unchanged, and an idle state accepts two staged
generations 1 then 2, after which consumption observes exactly 2. -/
theorem c1_update_nonblocking_single_slot_witness :
    (VizState.update ⟨0, none, true, 0⟩ = (false, (⟨0, none, true, 0⟩ : VizState ℕ))) ∧
    ((VizState.stage (⟨0, none, false, 0⟩ : VizState ℕ) 1).update.1 = true ∧
     ((VizState.stage (⟨0, none, false, 0⟩ : VizState ℕ) 1).update.2.stage 2).update.1 = true ∧
     ((VizState.stage (⟨0, none, false, 0⟩ : VizState ℕ) 1).update.2.stage 2).update.2.pending = some 2 ∧
     (((VizState.stage (⟨0, none, false, 0⟩ : VizState ℕ) 1).update.2.stage 2).update.2.beginConsume).front = 2) :=
  ⟨(c1_update_nonblocking_single_slot ⟨0, none, true, 0⟩ 1 2).1 rfl,
   (c1_update_nonblocking_single_slot ⟨0, none, false, 0⟩ 1 2).2 rfl⟩

/-- Claim C5: dispatch on an input-handler stack invokes handlers
most-recently-pushed-first; the first handler returning true stops dispatch,
so when every newer handler rejects the event and handler `(a, f)` accepts it,
exactly the newer handlers and then `a` are invoked, in that order, and none
of the older handlers ever runs; and popping removes exactly the most recently
pushed handler. -/
theorem c5_handler_stack_lifo {α E : Type} (e : E) (newer older : HandlerStack α E)
    (a : α) (f : E → Bool) (stack2 : HandlerStack α E) (top : α × (E → Bool))
    (hnew : ∀ p ∈ newer, p.2 e = false) (hf : f e = true) :
    dispatchTrace (newer ++ (a, f) :: older) e = newer.map Prod.fst ++ [a] ∧
    popHandler (pushHandler stack2 top) = stack2 := by
  refine ⟨?_, rfl⟩
  induction newer with
  | nil => simp [dispatchTrace, hf]
  | cons p rest ih =>
      have hrest : ∀ q ∈ rest, q.2 e = false :=
        fun q hq => hnew q (List.mem_cons_of_mem p hq)
      obtain ⟨b, g⟩ := p
      have hp : g e = false := hnew (b, g) (List.mem_cons_self (b, g) rest)
      simp [dispatchTrace, hp, ih hrest]

/-- Claim C5 witness: pushing H1, H2, H3 (labelled 1, 2, 3) in that order and
dispatching one event invokes H3 first; H3 returns false and H2 returns true,
so the trace is exactly [3, 2] and H1 is never invoked; popping then leaves
only H2, H1 active. -/
theorem c5_handler_stack_lifo_witness :
    dispatchTrace
      (pushHandler (pushHandler (pushHandler ([] : HandlerStack ℕ ℕ)
        (1, fun _ => false)) (2, fun _ => true)) (3, fun _ => false)) 0 =
      [3, 2] ∧
    popHandler
      (pushHandler (pushHandler (pushHandler ([] : HandlerStack ℕ ℕ)
        (1, fun _ => false)) (2, fun _ => true)) (3, fun _ => false)) =
      [(2, fun _ => true), (1, fun _ => false)] :=
  c5_handler_stack_lifo 0 [(3, fun _ => false)] [(1, fun _ => false)] 2
    (fun _ => true) [(2, fun _ => true), (1, fun _ => false)]
    (3, fun _ => false)
    (by intro p hp; simp at hp; rw [hp]) rfl

/-- Claim C6: `Camera::reset()` restores every camera field — target matrix,
view offset, yaw, pitch, log distance, orthographic flag, fov, projection
offset — to its construction-time default, so after any finite sequence of
yaw/pitch/dolly/dolly_xy/set_fov/set_orthographic/set_proj_offset calls,
`matrices(aspect)` of the reset camera equals that of a freshly constructed
camera for every aspect ratio. -/
theorem c6_camera_reset_restores_defaults (ops : List CameraOp) (aspect : ℚ) :
    (Camera.init.applyOps ops).reset = Camera.init ∧
    ((Camera.init.applyOps ops).reset).matrices aspect =
      Camera.init.matrices aspect := ⟨rfl, rfl⟩

/-- Claim C7: every scene-object setter, given an input of exactly its
documented size, succeeds, copies the caller-supplied data into the object's
owned staging buffer, and sets exactly the dirty flag(s) of its field group —
the `{ _ with ... }` right-hand sides record that every other field group's
flag and buffer is unchanged — and the flag is set unconditionally, with no
value-equality suppression, since nothing here compares new against old
values. -/
theorem c7_setters_copy_and_mark_dirty
    (c : Cloud) (rg ky mk xy off pal rot tr : List ℚ) (ps : ℕ)
    (pose tf : Mat4) (sz : ℚ) (img : Image) (iw ih mw mh : ℕ)
    (ibuf mbuf : List ℚ) (x0 x1 y0 y1 : ℚ) (cb : Cuboid) (rgba : Vec4)
    (l : Label) (text : String) (p3 : Vec3) (lx ly : ℚ) (ar : Bool)
    (scale : ℚ)
    (hrg : rg.length = c.n) (hky : ky.length = c.n)
    (hmk : mk.length = 4 * c.n) (hxy : xy.length = 3 * c.n)
    (hoff : off.length = 3 * c.n) (hpal : pal.length = 3 * ps)
    (hrot : rot.length = 9 * c.w) (htr : tr.length = 3 * c.w)
    (hib : ibuf.length = iw * ih) (hmb : mbuf.length = 4 * (mw * mh)) :
    c.set_range rg = some { c with range_data := rg, range_changed := true } ∧
    c.set_key ky = some { c with key_data := ky, key_changed := true } ∧
    c.set_mask mk = some { c with mask_data := mk, mask_changed := true } ∧
    c.set_xyz xy = some { c with xyz_data := xy, xyz_changed := true } ∧
    c.set_offset off =
      some { c with off_data := off, offset_changed := true } ∧
    c.set_pose pose = { c with pose := pose, pose_changed := true } ∧
    c.set_point_size sz =
      { c with point_size := sz, point_size_changed := true } ∧
    c.set_palette pal ps =
      some { c with palette_data := pal, palette_changed := true } ∧
    c.set_column_poses rot tr =
      some { c with transform_data := packColumnPoses c.w rot tr,
                    transform_changed := true } ∧
    img.set_image iw ih ibuf =
      some { img with image_width := iw, image_height := ih,
                      image_data := ibuf, image_changed := true } ∧
    img.set_mask mw mh mbuf =
      some { img with mask_width := mw, mask_height := mh,
                      mask_data := mbuf, mask_changed := true } ∧
    img.set_position x0 x1 y0 y1 =
      { img with position := ⟨x0, x1, y0, y1⟩, position_changed := true } ∧
    cb.set_transform tf =
      { cb with transform := tf, transform_changed := true } ∧
    cb.set_rgba rgba = { cb with rgba := rgba, rgba_changed := true } ∧
    l.set_text text = { l with text := text, text_changed := true } ∧
    l.set_position3d p3 =
      { l with position := p3, is_3d := true, pos_changed := true } ∧
    l.set_position2d lx ly ar =
      { l with position := ⟨lx, ly, 0⟩, is_3d := false, align_right := ar,
               pos_changed := true } ∧
    l.set_scale scale = { l with scale := scale, scale_changed := true } := by
  refine ⟨?_, ?_, ?_, ?_, ?_, rfl, rfl, ?_, ?_, ?_, ?_, rfl, rfl, rfl, rfl,
    rfl, rfl, rfl⟩
  · simp [Cloud.set_range, ← hrg]
  · simp [Cloud.set_key, ← hky]
  · simp [Cloud.set_mask, ← hmk]
  · simp [Cloud.set_xyz, ← hxy]
  · simp [Cloud.set_offset, ← hoff]
  · simp [Cloud.set_palette, ← hpal]
  · simp [Cloud.set_column_poses, hrot, htr]
  · simp [Image.set_image, ← hib]
  · simp [Image.set_mask, ← hmb]

/-- Claim C7 witness: a concrete unstructured cloud with `n = 1, w = 1`, a
default image, a cuboid and a 3d label, each setter given a buffer of exactly
its documented size. -/
theorem c7_setters_copy_and_mark_dirty_witness :
    (Cloud.initUnstructured 1 identity4d).set_range [5] =
      some { Cloud.initUnstructured 1 identity4d with
             range_data := [5], range_changed := true } ∧
    (Cloud.initUnstructured 1 identity4d).set_key [6] =
      some { Cloud.initUnstructured 1 identity4d with
             key_data := [6], key_changed := true } ∧
    (Cloud.initUnstructured 1 identity4d).set_mask [1, 2, 3, 4] =
      some { Cloud.initUnstructured 1 identity4d with
             mask_data := [1, 2, 3, 4], mask_changed := true } ∧
    (Cloud.initUnstructured 1 identity4d).set_xyz [7, 8, 9] =
      some { Cloud.initUnstructured 1 identity4d with
             xyz_data := [7, 8, 9], xyz_changed := true } ∧
    (Cloud.initUnstructured 1 identity4d).set_offset [10, 11, 12] =
      some { Cloud.initUnstructured 1 identity4d with
             off_data := [10, 11, 12], offset_changed := true } ∧
    (Cloud.initUnstructured 1 identity4d).set_pose identity4d =
      { Cloud.initUnstructured 1 identity4d with
        pose := identity4d, pose_changed := true } ∧
    (Cloud.initUnstructured 1 identity4d).set_point_size 3 =
      { Cloud.initUnstructured 1 identity4d with
        point_size := 3, point_size_changed := true } ∧
    (Cloud.initUnstructured 1 identity4d).set_palette [13, 14, 15] 1 =
      some { Cloud.initUnstructured 1 identity4d with
             palette_data := [13, 14, 15], palette_changed := true } ∧
    (Cloud.initUnstructured 1 identity4d).set_column_poses
        [1, 0, 0, 0, 1, 0, 0, 0, 1] [20, 21, 22] =
      some { Cloud.initUnstructured 1 identity4d with
             transform_data :=
               packColumnPoses 1 [1, 0, 0, 0, 1, 0, 0, 0, 1] [20, 21, 22],
             transform_changed := true } ∧
    Image.init.set_image 1 1 [16] =
      some { Image.init with image_width := 1, image_height := 1,
                             image_data := [16], image_changed := true } ∧
    Image.init.set_mask 1 1 [17, 18, 19, 20] =
      some { Image.init with mask_width := 1, mask_height := 1,
                             mask_data := [17, 18, 19, 20],
                             mask_changed := true } ∧
    Image.init.set_position 1 2 3 4 =
      { Image.init with position := ⟨1, 2, 3, 4⟩,
                        position_changed := true } ∧
    (Cuboid.init identity4d ⟨1, 0, 0, 1⟩).set_transform identity4d =
      { Cuboid.init identity4d ⟨1, 0, 0, 1⟩ with
        transform := identity4d, transform_changed := true } ∧
    (Cuboid.init identity4d ⟨1, 0, 0, 1⟩).set_rgba ⟨0, 1, 0, 1⟩ =
      { Cuboid.init identity4d ⟨1, 0, 0, 1⟩ with
        rgba := ⟨0, 1, 0, 1⟩, rgba_changed := true } ∧
    (Label.init3d "hello" ⟨0, 0, 0⟩).set_text "bye" =
      { Label.init3d "hello" ⟨0, 0, 0⟩ with
        text := "bye", text_changed := true } ∧
    (Label.init3d "hello" ⟨0, 0, 0⟩).set_position3d ⟨1, 2, 3⟩ =
      { Label.init3d "hello" ⟨0, 0, 0⟩ with
        position := ⟨1, 2, 3⟩, is_3d := true, pos_changed := true } ∧
    (Label.init3d "hello" ⟨0, 0, 0⟩).set_position2d 1 2 true =
      { Label.init3d "hello" ⟨0, 0, 0⟩ with
        position := ⟨1, 2, 0⟩, is_3d := false, align_right := true,
        pos_changed := true } ∧
    (Label.init3d "hello" ⟨0, 0, 0⟩).set_scale 2 =
      { Label.init3d "hello" ⟨0, 0, 0⟩ with
        scale := 2, scale_changed := true } :=
  c7_setters_copy_and_mark_dirty
    (Cloud.initUnstructured 1 identity4d) [5] [6] [1, 2, 3, 4] [7, 8, 9]
    [10, 11, 12] [13, 14, 15] [1, 0, 0, 0, 1, 0, 0, 0, 1] [20, 21, 22] 1
    identity4d identity4d 3 Image.init 1 1 1 1 [16] [17, 18, 19, 20]
    1 2 3 4 (Cuboid.init identity4d ⟨1, 0, 0, 1⟩) ⟨0, 1, 0, 1⟩
    (Label.init3d "hello" ⟨0, 0, 0⟩) "bye" ⟨1, 2, 3⟩ 1 2 true 2
    rfl rfl rfl rfl rfl rfl rfl rfl rfl rfl

/-- Claim C3 counterexample: the setters perform no size validation — on the
cloud with `n = 1`, `set_range` applied to the 2-element buffer `[5, 7]`
(whose size does not match the construction-time dimension `n = 1`) succeeds,
copies the first element into the staging buffer and sets the dirty flag,
rather than failing with an InvalidArgument error and leaving the staged
buffers and dirty flags unchanged. -/
theorem c3_counterexample :
    ([(5 : ℚ), 7].length = 2) ∧
    ((Cloud.initUnstructured 1 identity4d).n = 1) ∧
    ((Cloud.initUnstructured 1 identity4d).set_range [5, 7] =
      some { Cloud.initUnstructured 1 identity4d with
             range_data := [5], range_changed := true }) :=
  ⟨rfl, rfl, rfl⟩

/-- Claim C3 amended: the setters take raw pointers under an implicit length
contract and never report an InvalidArgument error — any buffer holding at
least the fixed element count succeeds, even when its size differs from the
exact documented one, copying exactly the fixed count and setting the field
group's dirty flag, while a shorter buffer is an out-of-bounds read (undefined
behavior, modelled as `none`), not a reported error that leaves the staged
state unchanged.  Shown for every buffer-taking setter and its fixed count:
`Cloud::set_range`/`set_key` (n), `set_mask` (4n), `set_xyz`/`set_offset`
(3n), `set_palette` (3·palette_size), `set_column_poses` (9w and 3w),
`Image::set_image` (w·h) and `Image::set_mask` (4·w·h). -/
theorem c3_amended_no_size_validation (c : Cloud)
    (rg ky mk xy off pal rot tr : List ℚ) (ps : ℕ) (img : Image)
    (iw ih mw mh : ℕ) (ibuf mbuf : List ℚ) :
    (c.n ≤ rg.length →
      c.set_range rg =
        some { c with range_data := rg.take c.n, range_changed := true }) ∧
    (rg.length < c.n → c.set_range rg = none) ∧
    (c.n ≤ ky.length →
      c.set_key ky =
        some { c with key_data := ky.take c.n, key_changed := true }) ∧
    (ky.length < c.n → c.set_key ky = none) ∧
    (4 * c.n ≤ mk.length →
      c.set_mask mk =
        some { c with mask_data := mk.take (4 * c.n),
                      mask_changed := true }) ∧
    (mk.length < 4 * c.n → c.set_mask mk = none) ∧
    (3 * c.n ≤ xy.length →
      c.set_xyz xy =
        some { c with xyz_data := xy.take (3 * c.n),
                      xyz_changed := true }) ∧
    (xy.length < 3 * c.n → c.set_xyz xy = none) ∧
    (3 * c.n ≤ off.length →
      c.set_offset off =
        some { c with off_data := off.take (3 * c.n),
                      offset_changed := true }) ∧
    (off.length < 3 * c.n → c.set_offset off = none) ∧
    (3 * ps ≤ pal.length →
      c.set_palette pal ps =
        some { c with palette_data := pal.take (3 * ps),
                      palette_changed := true }) ∧
    (pal.length < 3 * ps → c.set_palette pal ps = none) ∧
    (9 * c.w ≤ rot.length ∧ 3 * c.w ≤ tr.length →
      c.set_column_poses rot tr =
        some { c with transform_data := packColumnPoses c.w rot tr,
                      transform_changed := true }) ∧
    (rot.length < 9 * c.w ∨ tr.length < 3 * c.w →
      c.set_column_poses rot tr = none) ∧
    (iw * ih ≤ ibuf.length →
      img.set_image iw ih ibuf =
        some { img with image_width := iw, image_height := ih,
                        image_data := ibuf.take (iw * ih),
                        image_changed := true }) ∧
    (ibuf.length < iw * ih → img.set_image iw ih ibuf = none) ∧
    (4 * (mw * mh) ≤ mbuf.length →
      img.set_mask mw mh mbuf =
        some { img with mask_width := mw, mask_height := mh,
                        mask_data := mbuf.take (4 * (mw * mh)),
                        mask_changed := true }) ∧
    (mbuf.length < 4 * (mw * mh) → img.set_mask mw mh mbuf = none) := by
  refine ⟨fun h => ?_, fun h => ?_, fun h => ?_, fun h => ?_, fun h => ?_,
    fun h => ?_, fun h => ?_, fun h => ?_, fun h => ?_, fun h => ?_,
    fun h => ?_, fun h => ?_, fun h => ?_, fun h => ?_, fun h => ?_,
    fun h => ?_, fun h => ?_, fun h => ?_⟩
  · simp [Cloud.set_range, h]
  · simp [Cloud.set_range, Nat.not_le.2 h]
  · simp [Cloud.set_key, h]
  · simp [Cloud.set_key, Nat.not_le.2 h]
  · simp [Cloud.set_mask, h]
  · simp [Cloud.set_mask, Nat.not_le.2 h]
  · simp [Cloud.set_xyz, h]
  · simp [Cloud.set_xyz, Nat.not_le.2 h]
  · simp [Cloud.set_offset, h]
  · simp [Cloud.set_offset, Nat.not_le.2 h]
  · simp [Cloud.set_palette, h]
  · simp [Cloud.set_palette, Nat.not_le.2 h]
  · simp [Cloud.set_column_poses, h.1, h.2]
  · rcases h with h | h <;> simp [Cloud.set_column_poses, Nat.not_le.2 h]
  · simp [Image.set_image, h]
  · simp [Image.set_image, Nat.not_le.2 h]
  · simp [Image.set_mask, h]
  · simp [Image.set_mask, Nat.not_le.2 h]

/-- Claim C3 amended witness: on the cloud with `n = 1, w = 1`, an oversized
buffer for each of the nine buffer-taking setters succeeds with only the
fixed element count copied and the dirty flag set, while the empty buffer is
an out-of-bounds read for each. -/
theorem c3_amended_no_size_validation_witness :
    ((Cloud.initUnstructured 1 identity4d).set_range [5, 7] =
      some { Cloud.initUnstructured 1 identity4d with
             range_data := [5], range_changed := true }) ∧
    ((Cloud.initUnstructured 1 identity4d).set_range [] = none) ∧
    ((Cloud.initUnstructured 1 identity4d).set_key [6, 7] =
      some { Cloud.initUnstructured 1 identity4d with
             key_data := [6], key_changed := true }) ∧
    ((Cloud.initUnstructured 1 identity4d).set_key [] = none) ∧
    ((Cloud.initUnstructured 1 identity4d).set_mask [1, 2, 3, 4, 9] =
      some { Cloud.initUnstructured 1 identity4d with
             mask_data := [1, 2, 3, 4], mask_changed := true }) ∧
    ((Cloud.initUnstructured 1 identity4d).set_mask [] = none) ∧
    ((Cloud.initUnstructured 1 identity4d).set_xyz [7, 8, 9, 10] =
      some { Cloud.initUnstructured 1 identity4d with
             xyz_data := [7, 8, 9], xyz_changed := true }) ∧
    ((Cloud.initUnstructured 1 identity4d).set_xyz [] = none) ∧
    ((Cloud.initUnstructured 1 identity4d).set_offset [10, 11, 12, 13] =
      some { Cloud.initUnstructured 1 identity4d with
             off_data := [10, 11, 12], offset_changed := true }) ∧
    ((Cloud.initUnstructured 1 identity4d).set_offset [] = none) ∧
    ((Cloud.initUnstructured 1 identity4d).set_palette [13, 14, 15, 16] 1 =
      some { Cloud.initUnstructured 1 identity4d with
             palette_data := [13, 14, 15], palette_changed := true }) ∧
    ((Cloud.initUnstructured 1 identity4d).set_palette [] 1 = none) ∧
    ((Cloud.initUnstructured 1 identity4d).set_column_poses
        [1, 0, 0, 0, 1, 0, 0, 0, 1, 99] [20, 21, 22, 23] =
      some { Cloud.initUnstructured 1 identity4d with
             transform_data :=
               packColumnPoses 1 [1, 0, 0, 0, 1, 0, 0, 0, 1, 99]
                 [20, 21, 22, 23],
             transform_changed := true }) ∧
    ((Cloud.initUnstructured 1 identity4d).set_column_poses [] [] = none) ∧
    (Image.init.set_image 1 1 [16, 17] =
      some { Image.init with image_width := 1, image_height := 1,
                             image_data := [16], image_changed := true }) ∧
    (Image.init.set_image 1 1 [] = none) ∧
    (Image.init.set_mask 1 1 [17, 18, 19, 20, 21] =
      some { Image.init with mask_width := 1, mask_height := 1,
                             mask_data := [17, 18, 19, 20],
                             mask_changed := true }) ∧
    (Image.init.set_mask 1 1 [] = none) := by
  obtain ⟨a1, -, a3, -, a5, -, a7, -, a9, -, a11, -, a13, -, a15, -, a17, -⟩ :=
    c3_amended_no_size_validation (Cloud.initUnstructured 1 identity4d)
      [5, 7] [6, 7] [1, 2, 3, 4, 9] [7, 8, 9, 10] [10, 11, 12, 13]
      [13, 14, 15, 16] [1, 0, 0, 0, 1, 0, 0, 0, 1, 99] [20, 21, 22, 23] 1
      Image.init 1 1 1 1 [16, 17] [17, 18, 19, 20, 21]
  obtain ⟨-, b2, -, b4, -, b6, -, b8, -, b10, -, b12, -, b14, -, b16, -, b18⟩ :=
    c3_amended_no_size_validation (Cloud.initUnstructured 1 identity4d)
      [] [] [] [] [] [] [] [] 1 Image.init 1 1 1 1 [] []
  exact ⟨a1 (by decide), b2 (by decide), a3 (by decide), b4 (by decide),
    a5 (by decide), b6 (by decide), a7 (by decide), b8 (by decide),
    a9 (by decide), b10 (by decide), a11 (by decide), b12 (by decide),
    a13 (by decide), b14 (by decide), a15 (by decide), b16 (by decide),
    a17 (by decide), b18 (by decide)⟩

/-- Index lookup into a list built by mapping a function over `List.range`. -/
theorem getD_map_range (n : ℕ) (f : ℕ → ℚ) (i : ℕ) (d : ℚ) :
    ((List.range n).map f).getD i d = if i < n then f i else d := by
  by_cases h : i < n
  · rw [if_pos h, List.getD_eq_getElem _ d (by simpa using h)]
    simp
  · rw [if_neg h]
    exact List.getD_eq_default _ d (by simpa using Nat.le_of_not_lt h)

/-- Reading channel `ch` of texel `(v, j)` out of the packed `w × 4` pose
texture recovers the caller-supplied entry: rows 0-2 hold the three rotation
columns of pose `v`, row 3 its translation. -/
theorem packColumnPoses_texChannel (w : ℕ) (rot tr : List ℚ) (v j ch : ℕ)
    (hv : v < w) (hj : j < 4) (hch : ch < 3) :
    texChannel w (packColumnPoses w rot tr) v j ch =
      if j < 3 then rot.getD ((3 * j + ch) * w + v) 0
      else tr.getD (ch * w + v) 0 := by
  have hw : 0 < w := Nat.pos_of_ne_zero (by rintro rfl; omega)
  have hw3 : 0 < w * 3 := by omega
  have hsmall : ch + 3 * v < w * 3 := by omega
  have harr : (j * w + v) * 3 + ch = ch + 3 * v + w * 3 * j := by ring
  have hlt : (j * w + v) * 3 + ch < 4 * (w * 3) := by
    rw [harr]
    have : w * 3 * j ≤ w * 3 * 3 := Nat.mul_le_mul_left _ (by omega)
    omega
  unfold texChannel packColumnPoses
  rw [getD_map_range, if_pos hlt]
  have hdiv : ((j * w + v) * 3 + ch) / (w * 3) = j := by
    rw [harr, Nat.add_mul_div_left _ _ hw3, Nat.div_eq_of_lt hsmall,
      Nat.zero_add]
  have hmod : ((j * w + v) * 3 + ch) % (w * 3) = ch + 3 * v := by
    rw [harr, Nat.add_mul_mod_self_left, Nat.mod_eq_of_lt hsmall]
  have hmod3 : ((j * w + v) * 3 + ch) % 3 = ch := by
    have h3 : (j * w + v) * 3 + ch = ch + 3 * (v + j * w) := by ring
    rw [h3, Nat.add_mul_mod_self_left, Nat.mod_eq_of_lt hch]
  have hdiv3 : (ch + 3 * v) / 3 = v := by
    rw [Nat.add_mul_div_left _ _ (by omega : 0 < 3),
      Nat.div_eq_of_lt hch, Nat.zero_add]
  simp only [hdiv, hmod, hmod3, hdiv3]

/-- GL_NEAREST with CLAMP_TO_EDGE retrieves exactly texel `v` for every
sample coordinate in the `v`th of `size` equal subintervals of `[0, 1)` — a
sample reads one texel, with no blending into the neighbouring texel. -/
theorem nearestTexel_eq_of_mem_interval (size : ℕ) (hsize : 0 < size)
    (v : ℕ) (hv : v < size) (s : ℚ) (h1 : (v : ℚ) / size ≤ s)
    (h2 : s < ((v : ℚ) + 1) / size) : nearestTexel size s = v := by
  have hs : (0 : ℚ) < (size : ℚ) := by exact_mod_cast hsize
  have hl : (v : ℚ) ≤ s * size := (div_le_iff₀ hs).1 h1
  have hu : s * size < (v : ℚ) + 1 := (lt_div_iff₀ hs).1 h2
  have hfl : ⌊s * (size : ℚ)⌋ = (v : ℤ) := by
    refine Int.floor_eq_iff.2 ⟨?_, ?_⟩ <;> push_cast <;> linarith
  unfold nearestTexel
  rw [hfl, Int.toNat_natCast]
  omega

/-- Claim C2: column-pose encoding round trip.  For a structured cloud with
`w` column poses staged by `set_column_poses(rotation, translation)`
(`rotation` of size `9w`, `translation` of size `3w`), the pose the point
vertex shader retrieves at any sample position in `[v/w, (v+1)/w)` — in
particular at `trans_index = v/w` — is exactly the 3×3 rotation (columns
`r[v], r[w+v], ..., r[8w+v]`) and 3-vector translation
(`t[v], t[w+v], t[2w+v]`) supplied for column `v`, for every `v < w`, with no
blending or interpolation between adjacent columns (common.h `load_texture`
GL_NEAREST sampling and the shader lookups at rows 1/8, 3/8, 5/8, 7/8). -/
theorem c2_column_pose_roundtrip (w : ℕ) (rot tr : List ℚ) (hw : 0 < w)
    (v : ℕ) (hv : v < w) (s : ℚ)
    (h1 : (v : ℚ) / w ≤ s) (h2 : s < ((v : ℚ) + 1) / w) :
    shaderPoseLookup w (packColumnPoses w rot tr) s =
      { r0 := (rot.getD v 0, rot.getD (w + v) 0, rot.getD (2 * w + v) 0)
        r1 := (rot.getD (3 * w + v) 0, rot.getD (4 * w + v) 0,
               rot.getD (5 * w + v) 0)
        r2 := (rot.getD (6 * w + v) 0, rot.getD (7 * w + v) 0,
               rot.getD (8 * w + v) 0)
        t := (tr.getD v 0, tr.getD (w + v) 0, tr.getD (2 * w + v) 0) } := by
  have hcol : nearestTexel w s = v :=
    nearestTexel_eq_of_mem_interval w hw v hv s h1 h2
  have hrow0 : nearestTexel 4 (1 / 8 : ℚ) = 0 :=
    nearestTexel_eq_of_mem_interval 4 (by norm_num) 0 (by norm_num) _
      (by norm_num) (by norm_num)
  have hrow1 : nearestTexel 4 (3 / 8 : ℚ) = 1 :=
    nearestTexel_eq_of_mem_interval 4 (by norm_num) 1 (by norm_num) _
      (by norm_num) (by norm_num)
  have hrow2 : nearestTexel 4 (5 / 8 : ℚ) = 2 :=
    nearestTexel_eq_of_mem_interval 4 (by norm_num) 2 (by norm_num) _
      (by norm_num) (by norm_num)
  have hrow3 : nearestTexel 4 (7 / 8 : ℚ) = 3 :=
    nearestTexel_eq_of_mem_interval 4 (by norm_num) 3 (by norm_num) _
      (by norm_num) (by norm_num)
  unfold shaderPoseLookup sampleRGB
  simp only [hcol, hrow0, hrow1, hrow2, hrow3, ShaderPose.mk.injEq,
    Prod.mk.injEq]
  refine ⟨⟨?_, ?_, ?_⟩, ⟨?_, ?_, ?_⟩, ⟨?_, ?_, ?_⟩, ?_, ?_, ?_⟩ <;>
    rw [packColumnPoses_texChannel w rot tr v _ _ hv (by norm_num)
      (by norm_num)] <;> norm_num

/-- Claim C2 witness: for `w = 4` and 36 + 12 pairwise distinct supplied
values, sampling at `trans_index = v/4` for each `v ∈ {0, 1, 2, 3}` retrieves
exactly the rotation and translation entries supplied for column `v`. -/
theorem c2_column_pose_roundtrip_witness :
    shaderPoseLookup 4 (packColumnPoses 4 rotEx translationEx) 0 =
      { r0 := (0, 4, 8), r1 := (12, 16, 20), r2 := (24, 28, 32),
        t := (100, 104, 108) } ∧
    shaderPoseLookup 4 (packColumnPoses 4 rotEx translationEx) (1 / 4) =
      { r0 := (1, 5, 9), r1 := (13, 17, 21), r2 := (25, 29, 33),
        t := (101, 105, 109) } ∧
    shaderPoseLookup 4 (packColumnPoses 4 rotEx translationEx) (2 / 4) =
      { r0 := (2, 6, 10), r1 := (14, 18, 22), r2 := (26, 30, 34),
        t := (102, 106, 110) } ∧
    shaderPoseLookup 4 (packColumnPoses 4 rotEx translationEx) (3 / 4) =
      { r0 := (3, 7, 11), r1 := (15, 19, 23), r2 := (27, 31, 35),
        t := (103, 107, 111) } :=
  ⟨(c2_column_pose_roundtrip 4 rotEx translationEx (by norm_num) 0
      (by norm_num) 0 (by norm_num) (by norm_num)).trans (by decide),
   (c2_column_pose_roundtrip 4 rotEx translationEx (by norm_num) 1
      (by norm_num) (1 / 4) (by norm_num) (by norm_num)).trans (by decide),
   (c2_column_pose_roundtrip 4 rotEx translationEx (by norm_num) 2
      (by norm_num) (2 / 4) (by norm_num) (by norm_num)).trans (by decide),
   (c2_column_pose_roundtrip 4 rotEx translationEx (by norm_num) 3
      (by norm_num) (3 / 4) (by norm_num) (by norm_num)).trans (by decide)⟩

end OusterViz
